import Mathlib

/-!
Shallow embedding of the lagon serverless node core, translated from
`src/crates/serverless/src/deployments/pubsub.rs` (lifecycle reactor) and
`src/crates/serverless/src/serverless.rs` (request dispatcher, error handler,
worker pool). Concurrent maps (`DashMap`) are modelled as association lists
with key-replacing insertion; external effects (artifact download, disk
removal, cron registration, channel sends, the isolate itself) are supplied
as oracle inputs recording the outcome the external call would have had.
-/

set_option autoImplicit false

/-! ## Association-list maps (model of `DashMap` with string keys) -/

/-- Lookup of the value bound to key `k` (model of `DashMap::get`). -/
def lookupKV {α : Type} : List (String × α) → String → Option α
  | [], _ => none
  | (k', v) :: rest, k => if k' = k then some v else lookupKV rest k

/-- Remove every binding of key `k` (model of `DashMap::remove`). -/
def eraseKey {α : Type} : List (String × α) → String → List (String × α)
  | [], _ => []
  | (k', v) :: rest, k =>
      if k' = k then eraseKey rest k else (k', v) :: eraseKey rest k

/-- Insert, replacing any prior binding of `k` (model of `DashMap::insert`). -/
def insertKV {α : Type} (m : List (String × α)) (k : String) (v : α) :
    List (String × α) :=
  (k, v) :: eraseKey m k

/-- Insert the same value under every key of `ks`, in order (the
`for domain in &domains { deployments.insert(...) }` loops). -/
def insertAll {α : Type} (m : List (String × α)) (ks : List String) (v : α) :
    List (String × α) :=
  ks.foldl (fun acc k => insertKV acc k v) m

/-- Remove every key of `ks` (the `for domain in &domains { deployments.remove(...) }`
loops). -/
def removeAll {α : Type} (m : List (String × α)) (ks : List String) :
    List (String × α) :=
  ks.foldl (fun acc k => eraseKey acc k) m

theorem lookup_eraseKey {α : Type} (m : List (String × α)) (k k' : String) :
    lookupKV (eraseKey m k) k' = if k' = k then none else lookupKV m k' := by
  induction m with
  | nil => simp [eraseKey, lookupKV]
  | cons kv rest ih =>
      obtain ⟨a, v⟩ := kv
      simp only [eraseKey]
      by_cases hak : a = k
      · rw [if_pos hak, ih]
        by_cases hk : k' = k
        · simp [hk]
        · have hav : ¬ a = k' := fun h => hk (by rw [← h, hak])
          simp [lookupKV, hk, hav]
      · rw [if_neg hak]
        simp only [lookupKV]
        by_cases hav : a = k'
        · have hk : ¬ k' = k := fun h => hak (by rw [hav, h])
          simp [hav, hk]
        · rw [if_neg hav, ih]
          by_cases hk : k' = k <;> simp [hk, hav]

theorem lookup_insertKV {α : Type} (m : List (String × α)) (k k' : String) (v : α) :
    lookupKV (insertKV m k v) k' = if k' = k then some v else lookupKV m k' := by
  by_cases h : k' = k
  · simp [insertKV, lookupKV, h]
  · have : k ≠ k' := fun hk => h hk.symm
    simp [insertKV, lookupKV, this, lookup_eraseKey, h]

theorem lookup_insertAll_of_not_mem {α : Type} (m : List (String × α))
    (ks : List String) (v : α) (k : String) (h : k ∉ ks) :
    lookupKV (insertAll m ks v) k = lookupKV m k := by
  induction ks generalizing m with
  | nil => rfl
  | cons a tl ih =>
      have ha : k ≠ a := fun hk => h (hk ▸ List.mem_cons_self a tl)
      have htl : k ∉ tl := fun hk => h (List.mem_cons_of_mem a hk)
      simp only [insertAll, List.foldl_cons]
      rw [show (tl.foldl (fun acc k => insertKV acc k v) (insertKV m a v)) =
        insertAll (insertKV m a v) tl v from rfl, ih _ htl, lookup_insertKV,
        if_neg ha]

theorem lookup_insertAll_of_mem {α : Type} (m : List (String × α))
    (ks : List String) (v : α) (k : String) (h : k ∈ ks) :
    lookupKV (insertAll m ks v) k = some v := by
  induction ks generalizing m with
  | nil => cases h
  | cons a tl ih =>
      simp only [insertAll, List.foldl_cons]
      by_cases htl : k ∈ tl
      · exact ih _ htl
      · have hka : k = a := by
          rcases List.mem_cons.mp h with h' | h'
          · exact h'
          · exact absurd h' htl
        rw [show (tl.foldl (fun acc k => insertKV acc k v) (insertKV m a v)) =
          insertAll (insertKV m a v) tl v from rfl,
          lookup_insertAll_of_not_mem _ _ _ _ htl, lookup_insertKV, if_pos hka]

theorem lookup_removeAll_of_not_mem {α : Type} (m : List (String × α))
    (ks : List String) (k : String) (h : k ∉ ks) :
    lookupKV (removeAll m ks) k = lookupKV m k := by
  induction ks generalizing m with
  | nil => rfl
  | cons a tl ih =>
      have ha : k ≠ a := fun hk => h (hk ▸ List.mem_cons_self a tl)
      have htl : k ∉ tl := fun hk => h (List.mem_cons_of_mem a hk)
      simp only [removeAll, List.foldl_cons]
      rw [show (tl.foldl (fun acc k => eraseKey acc k) (eraseKey m a)) =
        removeAll (eraseKey m a) tl from rfl, ih _ htl, lookup_eraseKey,
        if_neg ha]

theorem lookup_removeAll_of_mem {α : Type} (m : List (String × α))
    (ks : List String) (k : String) (h : k ∈ ks) :
    lookupKV (removeAll m ks) k = none := by
  induction ks generalizing m with
  | nil => cases h
  | cons a tl ih =>
      simp only [removeAll, List.foldl_cons]
      by_cases htl : k ∈ tl
      · exact ih _ htl
      · have hka : k = a := by
          rcases List.mem_cons.mp h with h' | h'
          · exact h'
          · exact absurd h' htl
        rw [show (tl.foldl (fun acc k => eraseKey acc k) (eraseKey m a)) =
          removeAll (eraseKey m a) tl from rfl,
          lookup_removeAll_of_not_mem _ _ _ htl, lookup_eraseKey, if_pos hka]

/-! ## Data model -/

/-- The `Deployment` struct, as built by the reactor in `pubsub.rs`
(`deployments/mod.rs` itself is not under `src/`; the fields are exactly
those the reactor constructs). -/
structure Deployment where
  id : String
  function_id : String
  function_name : String
  assets : List String
  domains : List String
  environment_variables : List (String × String)
  memory : Nat
  tick_timeout : Nat
  total_timeout : Nat
  is_production : Bool
  cron : Option String
deriving DecidableEq, Repr

/-- Modelled from the spec: `Deployment::get_domains` lives in
`deployments/mod.rs`, which is not under `src/`. Spec §3 and the glossary:
the effective domains are the explicit `domains` plus one derived hostname —
`{function_name}.{root_domain}` when the deployment is production,
`{id}.{root_domain}` otherwise. -/
def Deployment.get_domains (d : Deployment) (rootDomain : String) : List String :=
  d.domains ++
    [(if d.is_production then d.function_name else d.id) ++ "." ++ rootDomain]

/-- Modelled from the spec: `Deployment::should_run_cron` is not under `src/`.
Spec §3: when `cron` is present the deployment is a cron job (the region
check has already been applied by the reactor's filter, and the struct keeps
no region field). -/
def Deployment.should_run_cron (d : Deployment) : Bool :=
  d.cron.isSome

/-! ## JSON payloads (model of `serde_json::Value`) -/

/-- Model of `serde_json::Value`. Numbers are restricted to naturals, which
is all `as_u64` accepts. -/
inductive Json where
  | null
  | bool (b : Bool)
  | num (n : Nat)
  | str (s : String)
  | arr (xs : List Json)
  | obj (fields : List (String × Json))

/-- Model of `value[key]` on a `serde_json::Value`: field of an object,
`Null` for a missing field or a non-object. -/
def Json.index : Json → String → Json
  | .obj fields, key =>
      match lookupKV fields key with
      | some v => v
      | none => .null
  | _, _ => .null

def Json.as_str : Json → Option String
  | .str s => some s
  | _ => none

def Json.as_u64 : Json → Option Nat
  | .num n => some n
  | _ => none

def Json.as_bool : Json → Option Bool
  | .bool b => some b
  | _ => none

def Json.as_array : Json → Option (List Json)
  | .arr xs => some xs
  | _ => none

def Json.as_object : Json → Option (List (String × Json))
  | .obj fields => some fields
  | _ => none

/-- The element-wise `v.as_str().unwrap()` mapping over a JSON array
(`assets`, `domains`): `none` models a panic. -/
def parseStrings (xs : List Json) : Option (List String) :=
  xs.mapM Json.as_str

/-- The `env` object mapping `(k, v.as_str().unwrap())`: `none` models a
panic. -/
def parseEnv (fields : List (String × Json)) : Option (List (String × String)) :=
  fields.mapM fun kv => (kv.2.as_str).map fun s => (kv.1, s)

/-- The construction of `Deployment` in `run` (pubsub.rs lines 51-78), with
every `.unwrap()` modelled as `Option` failure (= panic). `cron` has already
been extracted (and cloned) before this point in the source. -/
def parseDeployment (v : Json) (cron : Option String) : Option Deployment := do
  let id ← (v.index "deploymentId").as_str
  let function_id ← (v.index "functionId").as_str
  let function_name ← (v.index "functionName").as_str
  let assetsJson ← (v.index "assets").as_array
  let assets ← parseStrings assetsJson
  let domainsJson ← (v.index "domains").as_array
  let domains ← parseStrings domainsJson
  let envJson ← (v.index "env").as_object
  let environment_variables ← parseEnv envJson
  let memory ← (v.index "memory").as_u64
  let tick_timeout ← (v.index "tickTimeout").as_u64
  let total_timeout ← (v.index "totalTimeout").as_u64
  let is_production ← (v.index "isProduction").as_bool
  pure { id, function_id, function_name, assets, domains,
         environment_variables, memory, tick_timeout, total_timeout,
         is_production, cron }

/-! ## Metrics and reactor state -/

/-- Counter increments emitted by the node (`metrics::increment_counter!`). -/
inductive Metric where
  | deployments (status deployment function : String)
  | undeployments (status deployment function : String)
  | promotion (deployment function : String)
  | ignoredRequests (reason : String) (hostname : Option String)
  | isolateTimeouts (deployment function : String)
  | isolateMemoryLimits (deployment function : String)
  | isolateErrors (deployment function : String)
deriving DecidableEq, Repr

/-- The state the reactor mutates: the domain-keyed registry (`Deployments`),
the set of deployment ids with artifacts on disk, the registered cron ids,
and the worker pool (`Workers`, sender handles as numeric tokens). -/
structure ReactorState where
  registry : List (String × Deployment)
  artifacts : List String
  crons : List String
  workers : List (String × Nat)
deriving DecidableEq, Repr

/-- Model of `PubSubMessageKind` (the `Unknown` catch-all covers every other kind). -/
inductive PubSubMessageKind where
  | deploy
  | undeploy
  | promote
  | unknown
deriving DecidableEq, Repr

/-- Outcomes of the external calls a single event can make, supplied as
inputs: `download_deployment`, `rm_deployment`, `Cronjob::add`,
`Cronjob::remove`. -/
structure ReactorOracles where
  downloadResult : Except String Unit
  rmResult : Except String Unit
  cronAddResult : Except String Unit
  cronRemoveResult : Except String Unit

/-- Result of processing one control-plane message: `ok` with the new state
and the counters emitted, `jsonErr` when `serde_json::from_str(&payload)?`
fails (run returns `Err`, caught and logged by `listen_pub_sub`, loop
restarted), `panic` when an `.unwrap()` fails. -/
inductive Outcome where
  | ok (s : ReactorState) (metrics : List Metric)
  | jsonErr
  | panic
deriving DecidableEq, Repr

/-- Registry rewrite of the Promote arm (pubsub.rs lines 172-194): look up
`previousDeploymentId` as a key; when found, remove the found deployment's
effective domains, re-insert a clone with `is_production = false` under the
clone's effective domains; then bind the new deployment under its effective
domains. -/
def promoteRegistry (rootDomain : String) (registry : List (String × Deployment))
    (prevId : String) (d : Deployment) : List (String × Deployment) :=
  let r1 :=
    match lookupKV registry prevId with
    | some p =>
        let p' := { p with is_production := false }
        insertAll (removeAll registry (p.get_domains rootDomain))
          (p'.get_domains rootDomain) p'
    | none => registry
  insertAll r1 (d.get_domains rootDomain) d

/-- Cron-set rewrite of the Promote arm (pubsub.rs lines 199-211):
`cronjob.remove(previous_id)` always attempted (failure only logged), then
`cronjob.add` when the new deployment should run a cron (failure only
logged). -/
def promoteCrons (o : ReactorOracles) (crons : List String) (prevId : String)
    (d : Deployment) : List String :=
  let c1 :=
    match o.cronRemoveResult with
    | .ok _ => crons.erase prevId
    | .error _ => crons
  if d.should_run_cron then
    match o.cronAddResult with
    | .ok _ => c1 ++ [d.id]
    | .error _ => c1
  else c1

/-- One iteration of the reactor loop `run` (pubsub.rs lines 36-215) on a
single message. `payload = none` models `serde_json::from_str` failing. -/
def processMessage (region rootDomain : String) (kind : PubSubMessageKind)
    (payload : Option Json) (o : ReactorOracles) (s : ReactorState) : Outcome :=
  match payload with
  | none => .jsonErr
  | some v =>
    let cron := (v.index "cron").as_str
    match (v.index "cronRegion").as_str with
    | none => .panic
    | some cron_region =>
      if cron.isSome = true ∧ cron_region ≠ region ∧ kind ≠ .undeploy then
        .ok s []
      else
        match parseDeployment v cron with
        | none => .panic
        | some d =>
          match kind with
          | .deploy =>
              match o.downloadResult with
              | .ok _ =>
                  let domains := d.get_domains rootDomain
                  let registry' := insertAll s.registry domains d
                  let artifacts' :=
                    if d.id ∈ s.artifacts then s.artifacts
                    else s.artifacts ++ [d.id]
                  let crons' :=
                    if d.should_run_cron then
                      match o.cronAddResult with
                      | .ok _ => s.crons ++ [d.id]
                      | .error _ => s.crons
                    else s.crons
                  .ok { registry := registry', artifacts := artifacts',
                        crons := crons', workers := s.workers }
                    [.deployments "success" d.id d.function_id]
              | .error _ =>
                  .ok s [.deployments "error" d.id d.function_id]
          | .undeploy =>
              match o.rmResult with
              | .ok _ =>
                  let registry' := removeAll s.registry (d.get_domains rootDomain)
                  let workers' := eraseKey s.workers d.id
                  let crons' :=
                    if d.should_run_cron then
                      match o.cronRemoveResult with
                      | .ok _ => s.crons.erase d.id
                      | .error _ => s.crons
                    else s.crons
                  .ok { registry := registry', artifacts := s.artifacts.erase d.id,
                        crons := crons', workers := workers' }
                    [.undeployments "success" d.id d.function_id]
              | .error _ =>
                  .ok s [.undeployments "error" d.id d.function_id]
          | .promote =>
              match (v.index "previousDeploymentId").as_str with
              | none => .panic
              | some prev_id =>
                  .ok { registry := promoteRegistry rootDomain s.registry prev_id d,
                        artifacts := s.artifacts,
                        crons := promoteCrons o s.crons prev_id d,
                        workers := eraseKey s.workers prev_id }
                    [.promotion d.id d.function_id]
          | .unknown => .ok s []

/-! ## Request dispatcher (`serverless.rs`) -/

/-- Model of `RunResult` (crate lagon-runtime-http, external): the variants the node
inspects. `response` abbreviates `Response(..)` to its status code and
`stream` stands for `Stream(..)`; both fall into `handle_error`'s default
arm. -/
inductive RunResult where
  | response (status : Nat)
  | stream
  | timeout
  | memoryLimit
  | error (msg : String)
deriving DecidableEq, Repr

/-- Row written to `serverless.logs` (`LogRow` in clickhouse.rs, built in
`handle_error`). -/
structure LogRow where
  function_id : String
  deployment_id : String
  level : String
  message : String
  region : String
  timestamp : Nat
deriving DecidableEq, Repr

/-- Row written to `serverless.requests` on a successful code response. -/
structure RequestRow where
  function_id : String
  deployment_id : String
  region : String
  bytes_in : Nat
  bytes_out : Nat
  cpu_time_micros : Nat
  timestamp : Nat
deriving DecidableEq, Repr

/-- Translation of `handle_error` (serverless.rs lines 46-97): classifies a `RunResult`
into an optional counter increment and the `(level, message)` pair, and
builds the `LogRow` handed to the log inserter. `request_id` is used only
for logging in the source. -/
def handle_error (result : RunResult) (function_id deployment_id : String)
    (request_id : String) (region : String) (timestamp : Nat) :
    Option Metric × LogRow :=
  let _ := request_id
  let classified : Option Metric × String × String :=
    match result with
    | .timeout =>
        (some (.isolateTimeouts deployment_id function_id), "warn",
          "Function execution timed out")
    | .memoryLimit =>
        (some (.isolateMemoryLimits deployment_id function_id), "warn",
          "Function execution memory limit reached")
    | .error e =>
        (some (.isolateErrors deployment_id function_id), "error",
          "Function execution error: " ++ e)
    | _ => (none, "warn", "Unknown result")
  (classified.1,
    { function_id, deployment_id, level := classified.2.1,
      message := classified.2.2, region, timestamp })

/-- The single `inserters.1.write(&LogRow { .. })` call `handle_error`
performs: the log inserter receives exactly the one row built above. -/
def handle_error_write (logs : List LogRow) (result : RunResult)
    (function_id deployment_id request_id region : String) (timestamp : Nat) :
    List LogRow :=
  logs ++ [(handle_error result function_id deployment_id request_id region
    timestamp).2]

/-- Model of `ResponseEvent` (crate lagon-runtime-utils): the events `handle_response`
feeds to the dispatcher's callback (serverless.rs lines 265-327). -/
inductive ResponseEvent where
  | bytes (bytesOut cpuTimeMicros : Nat)
  | streamDoneNoDataError
  | unexpectedStreamResult (r : RunResult)
  | limitsReached (r : RunResult)
  | errorEvent (r : RunResult)
deriving DecidableEq, Repr

/-- Modelled from the spec: `handle_response` (crate lagon-runtime-utils,
not under `src/`) consumes the reply channel. Spec §4.4/§4.5: a channel
whose sender side was dropped before any data (the soft-failure path) yields
`StreamDoneNoDataError` and a synthesized 5xx (500) error response; a
terminal `Response` is surfaced as-is with a `Bytes` accounting event;
limit results surface `LimitsReached` with a synthesized error response;
errors surface `Error`. The input list is the sequence of `RunResult`s the
producer managed to send. -/
def handle_response_model : List RunResult → Nat × List ResponseEvent
  | [] => (500, [.streamDoneNoDataError])
  | .response status :: _ => (status, [.bytes 0 0])
  | .stream :: _ => (200, [.bytes 0 0])
  | .timeout :: _ => (502, [.limitsReached .timeout])
  | .memoryLimit :: _ => (502, [.limitsReached .memoryLimit])
  | .error e :: _ => (500, [.errorEvent (.error e)])

/-- The dispatcher's response-event callback (serverless.rs lines 270-323):
`Bytes` writes one `RequestRow`; `StreamDoneNoDataError` calls
`handle_error` with the synthesized error; the remaining events forward
their `RunResult` to `handle_error`. Returns the request rows, log rows and
counters produced. -/
def responseEventEffects (event : ResponseEvent) (d : Deployment)
    (request_id region : String) (bytesIn timestamp : Nat) :
    List RequestRow × List LogRow × List Metric :=
  match event with
  | .bytes bytesOut cpu =>
      ([{ function_id := d.function_id, deployment_id := d.id, region,
          bytes_in := bytesIn, bytes_out := bytesOut, cpu_time_micros := cpu,
          timestamp }], [], [])
  | .streamDoneNoDataError =>
      let r := handle_error
        (.error "The stream was done before sending a response/data")
        d.function_id d.id request_id region timestamp
      ([], [r.2], r.1.toList)
  | .unexpectedStreamResult r | .limitsReached r | .errorEvent r =>
      let res := handle_error r d.function_id d.id request_id region timestamp
      ([], [res.2], res.1.toList)

/-- Folds `responseEventEffects` over the event stream. -/
def consumeEvents (events : List ResponseEvent) (d : Deployment)
    (request_id region : String) (bytesIn timestamp : Nat) :
    List RequestRow × List LogRow × List Metric :=
  events.foldl
    (fun acc e =>
      let eff := responseEventEffects e d request_id region bytesIn timestamp
      (acc.1 ++ eff.1, acc.2.1 ++ eff.2.1, acc.2.2 ++ eff.2.2))
    ([], [], [])

/-- Model of a `hyper::HeaderValue`: only its `to_str()` outcome matters to
the node (`some` iff the raw bytes are visible ASCII). -/
structure HeaderValue where
  toStr : Option String
deriving DecidableEq, Repr

/-- The parts of a `hyper::Request` the dispatcher reads. -/
structure HttpRequest where
  xLagonId : Option HeaderValue
  host : Option HeaderValue
  path : String
  body : String
deriving DecidableEq, Repr

/-- Bodies the dispatcher can answer with: the two canonical pages, or
whatever `handle_response` streamed back. -/
inductive RespBody where
  | page404
  | page403
  | streamed
deriving DecidableEq, Repr

/-- Result of `handle_request`: `ok` mirrors `Ok(Response)`, `err` mirrors
an error propagated with `?` out of the handler. -/
inductive HttpOutcome where
  | ok (status : Nat) (body : RespBody)
  | err (msg : String)
deriving DecidableEq, Repr

/-- Modelled from the spec: `find_asset` (crate lagon-runtime-utils, not
under `src/`). Spec §4.5: "If `url` matches any asset of this deployment". -/
def find_asset (url : String) (assets : List String) : Option String :=
  if url ∈ assets then some url else none

/-- Outcomes of the external calls one request can make: `get_code` in the
spawned worker, `handle_asset` (status of the asset response), the
`send_async` on the worker channel, and the `RunResult`s the isolate sends
back when the send succeeded. -/
structure RequestOracles where
  getCode : Except String String
  assetResult : Except String Nat
  sendOk : Bool
  isolateResults : List RunResult

/-- Everything `handle_request` returns or mutates: the HTTP outcome, the
counters emitted on the request path, the worker pool and `last_requests`
maps after the call, the deployment ids an `IsolateRequest` was successfully
enqueued for, the rows written to the two inserters, and the code a newly
spawned isolate was constructed with (`none` when no worker was created). -/
structure RequestOutcome where
  response : HttpOutcome
  metrics : List Metric
  workers : List (String × Nat)
  lastRequests : List (String × Nat)
  enqueued : List String
  requestRows : List RequestRow
  logRows : List LogRow
  isolateCode : Option String
deriving DecidableEq, Repr

/-- Translation of `handle_request` (serverless.rs lines 99-329). `now` is the `Instant`
stamped into `last_requests`, `freshSender` the channel handle a newly
created worker would store in the pool, `timestamp` the row timestamp. -/
def handle_request (req : HttpRequest)
    (registry : List (String × Deployment)) (pool : List (String × Nat))
    (lastRequests : List (String × Nat)) (now : Nat) (freshSender : Nat)
    (region : String) (timestamp : Nat) (o : RequestOracles) : RequestOutcome :=
  let request_id : String :=
    match req.xLagonId with
    | some hv => hv.toStr.getD ""
    | none => ""
  match req.host with
  | none =>
      { response := .ok 404 .page404,
        metrics := [.ignoredRequests "No hostname" none],
        workers := pool, lastRequests := lastRequests, enqueued := [],
        requestRows := [], logRows := [], isolateCode := none }
  | some hv =>
    match hv.toStr with
    | none =>
        { response := .err "failed to convert header to a str",
          metrics := [], workers := pool, lastRequests := lastRequests,
          enqueued := [], requestRows := [], logRows := [],
          isolateCode := none }
    | some hostname =>
      match lookupKV registry hostname with
      | none =>
          { response := .ok 404 .page404,
            metrics := [.ignoredRequests "No deployment" (some hostname)],
            workers := pool, lastRequests := lastRequests, enqueued := [],
            requestRows := [], logRows := [], isolateCode := none }
      | some deployment =>
        if deployment.cron.isSome then
          { response := .ok 403 .page403,
            metrics := [.ignoredRequests "Cron" (some hostname)],
            workers := pool, lastRequests := lastRequests, enqueued := [],
            requestRows := [], logRows := [], isolateCode := none }
        else
          let finish := fun (stream : List RunResult) (pool' : List (String × Nat))
              (lastRequests' : List (String × Nat)) (enqueued : List String)
              (bytesIn : Nat) (isolateCode : Option String) =>
            let hr := handle_response_model stream
            let eff := consumeEvents hr.2 deployment request_id region bytesIn
              timestamp
            { response := HttpOutcome.ok hr.1 .streamed, metrics := eff.2.2,
              workers := pool', lastRequests := lastRequests',
              enqueued := enqueued, requestRows := eff.1,
              logRows := eff.2.1, isolateCode := isolateCode }
          match find_asset req.path deployment.assets with
          | some _ =>
              let run_result :=
                match o.assetResult with
                | .ok status => RunResult.response status
                | .error _ => RunResult.error "Could not retrieve asset."
              finish [run_result] pool lastRequests [] 0 none
          | none =>
            if req.path = "/favicon.ico" then
              finish [RunResult.response 404] pool lastRequests [] 0 none
            else
              let lastRequests' := insertKV lastRequests deployment.id now
              let bytesIn := req.body.length
              let created := (lookupKV pool deployment.id).isNone
              let pool' :=
                if created then insertKV pool deployment.id freshSender
                else pool
              let isolateCode :=
                if created then
                  some (match o.getCode with
                        | .ok code => code
                        | .error _ => "")
                else none
              let stream := if o.sendOk then o.isolateResults else []
              let enqueued := if o.sendOk then [deployment.id] else []
              finish stream pool' lastRequests' enqueued bytesIn isolateCode

/-- Worker self-removal when its isolate event loop returns (serverless.rs
line 252): `isolate_workers.remove(&deployment.id)`, unconditionally. -/
def workerExit (pool : List (String × Nat)) (deploymentId : String) :
    List (String × Nat) :=
  eraseKey pool deploymentId

/-- Translation of `clear_deployment_cache` (pubsub.rs lines 14-20): remove the sender from
the pool (the `Terminate` send's failure is discarded with `unwrap_or`). -/
def clear_deployment_cache (workers : List (String × Nat))
    (deploymentId : String) : List (String × Nat) :=
  eraseKey workers deploymentId

/-! ## Shared fixtures and helper lemmas -/

/-- Oracle bundle where every external call succeeds. -/
def okOracles : ReactorOracles :=
  { downloadResult := .ok (), rmResult := .ok (),
    cronAddResult := .ok (), cronRemoveResult := .ok () }

/-- Oracle bundle where the artifact download fails. -/
def downloadFailOracles : ReactorOracles :=
  { downloadResult := .error "network", rmResult := .ok (),
    cronAddResult := .ok (), cronRemoveResult := .ok () }

/-- The empty reactor state. -/
def emptyState : ReactorState :=
  { registry := [], artifacts := [], crons := [], workers := [] }

theorem filterCond_neg (cron : Option String) (cr region : String)
    (kind : PubSubMessageKind) (h : cron = none ∨ cr = region) :
    ¬(cron.isSome = true ∧ cr ≠ region ∧ kind ≠ PubSubMessageKind.undeploy) := by
  rcases h with h | h
  · intro hc
    rw [h] at hc
    exact absurd hc.1 (by simp)
  · intro hc
    exact hc.2.1 h

/-! ## C3 — region filter -/

/-- C3: a control-plane message whose kind is not Undeploy, whose `cron`
field is set, and whose `cronRegion` differs from the node's region is
dropped: the reactor returns the state unchanged (registry, artifact store,
cron registrations, worker pool) and emits no counter. -/
theorem region_filter_drops (region root : String) (kind : PubSubMessageKind)
    (v : Json) (o : ReactorOracles) (s : ReactorState) (c cr : String)
    (hcron : (v.index "cron").as_str = some c)
    (hcr : (v.index "cronRegion").as_str = some cr)
    (hne : cr ≠ region) (hkind : kind ≠ PubSubMessageKind.undeploy) :
    processMessage region root kind (some v) o s = .ok s [] := by
  have hpos : ((v.index "cron").as_str).isSome = true ∧ cr ≠ region ∧
      kind ≠ PubSubMessageKind.undeploy := ⟨by rw [hcron]; rfl, hne, hkind⟩
  simp [processMessage, hcr, hpos]

/-- Payload of a foreign-region cron deploy used to instantiate C3. -/
def foreignCronPayload : Json :=
  .obj [("cron", .str "*/5 * * * *"), ("cronRegion", .str "eu-west")]

/-- C3 witness: the filter drops a concrete foreign-region cron Deploy
without touching the empty state. -/
theorem region_filter_drops_witness :
    processMessage "local" "lagon.dev" .deploy (some foreignCronPayload)
      okOracles emptyState = .ok emptyState [] := by
  exact region_filter_drops "local" "lagon.dev" .deploy foreignCronPayload
    okOracles emptyState "*/5 * * * *" "eu-west" (by decide) (by decide)
    (by decide) (by decide)

/-! ## C5 — deploy artifact-download failure -/

/-- C5: when the artifact download of a Deploy event fails, the reactor
emits exactly the `lagon_deployments{status=error}` counter and stops: the
registry, artifact store, cron registrations and worker pool are returned
unchanged. -/
theorem deploy_download_failure (region root : String) (v : Json)
    (o : ReactorOracles) (s : ReactorState) (cr : String) (d : Deployment)
    (e : String)
    (hcr : (v.index "cronRegion").as_str = some cr)
    (hfilter : (v.index "cron").as_str = none ∨ cr = region)
    (hparse : parseDeployment v ((v.index "cron").as_str) = some d)
    (hdl : o.downloadResult = .error e) :
    processMessage region root .deploy (some v) o s =
      .ok s [.deployments "error" d.id d.function_id] := by
  simp only [processMessage, hcr, hparse, hdl]
  rw [if_neg (filterCond_neg ((v.index "cron").as_str) cr region .deploy hfilter)]

/-- Payload of an ordinary production deploy for function `fn`. -/
def deployPayload : Json :=
  .obj [("deploymentId", .str "d1"), ("functionId", .str "f1"),
        ("functionName", .str "fn"), ("assets", .arr []),
        ("domains", .arr [.str "a.com"]), ("env", .obj []),
        ("memory", .num 128), ("tickTimeout", .num 100),
        ("totalTimeout", .num 1000), ("isProduction", .bool true),
        ("cronRegion", .str "local")]

/-- The deployment `deployPayload` parses to. -/
def deployedD1 : Deployment :=
  { id := "d1", function_id := "f1", function_name := "fn", assets := [],
    domains := ["a.com"], environment_variables := [], memory := 128,
    tick_timeout := 100, total_timeout := 1000, is_production := true,
    cron := none }

/-- C5 witness: a concrete Deploy whose download fails leaves the empty
state untouched and emits only the error counter. -/
theorem deploy_download_failure_witness :
    processMessage "local" "lagon.dev" .deploy (some deployPayload)
      downloadFailOracles emptyState =
      .ok emptyState [.deployments "error" "d1" "f1"] := by
  exact deploy_download_failure "local" "lagon.dev" deployPayload
    downloadFailOracles emptyState "local" deployedD1 "network" (by decide)
    (Or.inr rfl) (by decide) rfl

/-! ## C6 — reactor robustness against malformed payloads -/

/-- C6 amended: a payload that is not valid JSON makes the reactor's `run`
return an error (`?` on `serde_json::from_str`) without panicking and
without any state change; `listen_pub_sub` logs it and restarts the loop, so
subsequent events are consumed. (Payloads that are valid JSON but lack a
required field panic instead — see the counterexample.) -/
theorem malformed_json_degrades (region root : String)
    (kind : PubSubMessageKind) (o : ReactorOracles) (s : ReactorState) :
    processMessage region root kind none o s = .jsonErr := rfl

/-- C6 counterexample: the valid JSON payload `{}` lacks `cronRegion`, so
`value["cronRegion"].as_str().unwrap()` panics — processing does not merely
log and continue. -/
theorem missing_field_panics :
    processMessage "local" "lagon.dev" .deploy (some (Json.obj [])) okOracles
      emptyState = .panic := by decide

/-! ## C8 — worker self-removal from the pool -/

/-- C8 counterexample: the exit path removes the pool entry without checking
that it is still the exiting worker's own sender. With the entry holding a
successor's sender `2` — not the exiting worker's sender `1` — the removal
still deletes it. -/
theorem worker_exit_conditional_removal_false :
    ¬ (∀ (pool : List (String × Nat)) (id : String) (ownSender : Nat),
        lookupKV pool id ≠ some ownSender →
        lookupKV (workerExit pool id) id = lookupKV pool id) := by
  intro h
  have h2 := h [("d1", 2)] "d1" 1 (by decide)
  rw [show lookupKV (workerExit [("d1", 2)] "d1") "d1" = none by decide,
    show lookupKV [("d1", 2)] "d1" = some 2 by decide] at h2
  cases h2

/-- C8 amended: when a worker's isolate event loop returns it removes its
deployment's entry from the pool unconditionally
(`isolate_workers.remove(&deployment.id)`): afterwards no entry — not even a
freshly recreated successor's — remains under that id. -/
theorem worker_exit_removes_entry (pool : List (String × Nat)) (id : String) :
    lookupKV (workerExit pool id) id = none := by
  rw [workerExit, lookup_eraseKey, if_pos rfl]

/-! ## C9 — error handler classification -/

/-- C9: `handle_error` writes exactly one `LogRow` per invocation, and
classifies: `Timeout` increments `isolate_timeouts` with a warn row
"Function execution timed out"; `MemoryLimit` increments
`isolate_memory_limits` with a warn row; `Error(e)` increments
`isolate_errors` with an error row; any other result yields a warn
"Unknown result" row with no counter. -/
theorem handle_error_classification (f d rid reg : String) (ts : Nat)
    (logs : List LogRow) :
    (∀ r : RunResult,
      (handle_error_write logs r f d rid reg ts).length = logs.length + 1) ∧
    handle_error .timeout f d rid reg ts =
      (some (.isolateTimeouts d f),
        ⟨f, d, "warn", "Function execution timed out", reg, ts⟩) ∧
    handle_error .memoryLimit f d rid reg ts =
      (some (.isolateMemoryLimits d f),
        ⟨f, d, "warn", "Function execution memory limit reached", reg, ts⟩) ∧
    (∀ e, handle_error (.error e) f d rid reg ts =
      (some (.isolateErrors d f),
        ⟨f, d, "error", "Function execution error: " ++ e, reg, ts⟩)) ∧
    (∀ st, handle_error (.response st) f d rid reg ts =
      (none, ⟨f, d, "warn", "Unknown result", reg, ts⟩)) ∧
    handle_error .stream f d rid reg ts =
      (none, ⟨f, d, "warn", "Unknown result", reg, ts⟩) := by
  refine ⟨fun r => ?_, rfl, rfl, fun e => rfl, fun st => rfl, rfl⟩
  simp [handle_error_write]

/-! ## C2 — cron deployments are never HTTP-callable -/

/-- C2: when the Host header resolves to a deployment whose `cron` is set,
`handle_request` answers 403 with the canonical 403 body, emits exactly
`ignored_requests{reason=Cron}`, and — whatever the path — touches neither
the worker pool nor `last_requests` and enqueues no `IsolateRequest`. -/
theorem cron_guard (req : HttpRequest) (registry : List (String × Deployment))
    (pool lastReq : List (String × Nat)) (now fresh : Nat) (region : String)
    (ts : Nat) (o : RequestOracles) (hv : HeaderValue) (h : String)
    (d : Deployment) (c : String)
    (hhost : req.host = some hv) (hstr : hv.toStr = some h)
    (hlook : lookupKV registry h = some d) (hcron : d.cron = some c) :
    handle_request req registry pool lastReq now fresh region ts o =
      { response := .ok 403 .page403,
        metrics := [.ignoredRequests "Cron" (some h)],
        workers := pool, lastRequests := lastReq, enqueued := [],
        requestRows := [], logRows := [], isolateCode := none } := by
  simp [handle_request, hhost, hstr, hlook, hcron]

/-- A cron deployment bound under `cron.lagon.dev`. -/
def cronDeployment : Deployment :=
  { id := "c1", function_id := "f2", function_name := "job", assets := [],
    domains := ["cron.lagon.dev"], environment_variables := [], memory := 128,
    tick_timeout := 100, total_timeout := 1000, is_production := true,
    cron := some "*/5 * * * *" }

/-- Request oracles where every external call succeeds. -/
def happyRequestOracles : RequestOracles :=
  { getCode := .ok "export fn", assetResult := .ok 200, sendOk := true,
    isolateResults := [.response 200] }

/-- C2 witness: a concrete request to the cron deployment's domain gets the
canonical 403 and nothing is enqueued. -/
theorem cron_guard_witness :
    handle_request
      { xLagonId := none, host := some ⟨some "cron.lagon.dev"⟩,
        path := "/any", body := "" }
      [("cron.lagon.dev", cronDeployment)] [] [] 0 1 "local" 0
      happyRequestOracles =
      { response := .ok 403 .page403,
        metrics := [.ignoredRequests "Cron" (some "cron.lagon.dev")],
        workers := [], lastRequests := [], enqueued := [],
        requestRows := [], logRows := [], isolateCode := none } := by
  exact cron_guard _ _ _ _ _ _ _ _ _ ⟨some "cron.lagon.dev"⟩ "cron.lagon.dev"
    cronDeployment "*/5 * * * *" rfl rfl (by decide) rfl

/-! ## C4 — Host header resolution -/

/-- A request whose Host header bytes are not visible ASCII
(`to_str()` fails). -/
def badHostRequest : HttpRequest :=
  { xLagonId := none, host := some ⟨none⟩, path := "/", body := "" }

/-- C4 counterexample: a present-but-unparsable Host header does not produce
the canonical 404 and does not increment `ignored_requests`; the `?` on
`to_str()` propagates an error out of `handle_request`. -/
theorem host_unparsable_counterexample :
    handle_request badHostRequest [] [] [] 0 1 "local" 0 happyRequestOracles =
      { response := .err "failed to convert header to a str", metrics := [],
        workers := [], lastRequests := [], enqueued := [], requestRows := [],
        logRows := [], isolateCode := none } ∧
    HttpOutcome.err "failed to convert header to a str" ≠
      HttpOutcome.ok 404 .page404 := by
  exact ⟨rfl, by decide⟩

/-- C4 amended: a missing Host header yields the canonical 404 and
increments `ignored_requests{reason=No hostname}`; a Host header whose value
cannot be parsed as a string instead makes `handle_request` return an error
(no 404 page, no counter). -/
theorem host_resolution (req : HttpRequest)
    (registry : List (String × Deployment)) (pool lastReq : List (String × Nat))
    (now fresh : Nat) (region : String) (ts : Nat) (o : RequestOracles) :
    (req.host = none →
      handle_request req registry pool lastReq now fresh region ts o =
        { response := .ok 404 .page404,
          metrics := [.ignoredRequests "No hostname" none],
          workers := pool, lastRequests := lastReq, enqueued := [],
          requestRows := [], logRows := [], isolateCode := none }) ∧
    (∀ hv : HeaderValue, req.host = some hv → hv.toStr = none →
      handle_request req registry pool lastReq now fresh region ts o =
        { response := .err "failed to convert header to a str", metrics := [],
          workers := pool, lastRequests := lastReq, enqueued := [],
          requestRows := [], logRows := [], isolateCode := none }) := by
  constructor
  · intro hnone
    simp [handle_request, hnone]
  · intro hv hsome hstr
    simp [handle_request, hsome, hstr]

/-- C4 witness: both halves at concrete requests — no Host header at all,
and the unparsable Host header. -/
theorem host_resolution_witness :
    handle_request { xLagonId := none, host := none, path := "/", body := "" }
      [] [] [] 0 1 "local" 0 happyRequestOracles =
      { response := .ok 404 .page404,
        metrics := [.ignoredRequests "No hostname" none],
        workers := [], lastRequests := [], enqueued := [], requestRows := [],
        logRows := [], isolateCode := none } ∧
    handle_request badHostRequest [] [] [] 0 1 "local" 0 happyRequestOracles =
      { response := .err "failed to convert header to a str", metrics := [],
        workers := [], lastRequests := [], enqueued := [], requestRows := [],
        logRows := [], isolateCode := none } := by
  exact ⟨(host_resolution _ [] [] [] 0 1 "local" 0 happyRequestOracles).1 rfl,
    (host_resolution badHostRequest [] [] [] 0 1 "local" 0
      happyRequestOracles).2 ⟨none⟩ rfl rfl⟩

/-! ## C7 — worker-channel send failure is a soft failure -/

/-- C7: on the code path, when `send_async` on the stored worker sender
fails (the send error is discarded with `unwrap_or(())` and the reply
channel stays empty), the request is answered through the error path with a
5xx (500) response and exactly one error `LogRow` — it neither hangs nor
silently drops the failure. -/
theorem send_failure_soft (req : HttpRequest)
    (registry : List (String × Deployment)) (pool lastReq : List (String × Nat))
    (now fresh : Nat) (region : String) (ts : Nat) (o : RequestOracles)
    (hv : HeaderValue) (h : String) (d : Deployment)
    (hhost : req.host = some hv) (hstr : hv.toStr = some h)
    (hlook : lookupKV registry h = some d) (hcron : d.cron = none)
    (hasset : find_asset req.path d.assets = none)
    (hfav : req.path ≠ "/favicon.ico") (hsend : o.sendOk = false) :
    (handle_request req registry pool lastReq now fresh region ts o).response =
      .ok 500 .streamed ∧
    500 ≥ 500 ∧ 500 < 600 ∧
    (handle_request req registry pool lastReq now fresh region ts o).logRows =
      [⟨d.function_id, d.id, "error",
        "Function execution error: The stream was done before sending a response/data",
        region, ts⟩] ∧
    (handle_request req registry pool lastReq now fresh region ts o).metrics =
      [.isolateErrors d.id d.function_id] ∧
    (handle_request req registry pool lastReq now fresh region ts o).enqueued =
      [] := by
  refine ⟨?_, by decide, by decide, ?_, ?_, ?_⟩ <;>
    simp [handle_request, hhost, hstr, hlook, hcron, hasset, hfav, hsend,
      handle_response_model, consumeEvents, responseEventEffects, handle_error]

/-- A plain HTTP deployment bound under `fn.lagon.dev`. -/
def webDeployment : Deployment :=
  { id := "d9", function_id := "f9", function_name := "web", assets := [],
    domains := ["fn.lagon.dev"], environment_variables := [], memory := 128,
    tick_timeout := 100, total_timeout := 1000, is_production := true,
    cron := none }

/-- Request oracles where the worker-channel send fails. -/
def sendFailOracles : RequestOracles :=
  { getCode := .ok "export fn", assetResult := .ok 200, sendOk := false,
    isolateResults := [] }

/-- C7 witness: a concrete code request whose worker send fails gets a 500
and one error log row. -/
theorem send_failure_soft_witness :
    (handle_request
      { xLagonId := none, host := some ⟨some "fn.lagon.dev"⟩,
        path := "/run", body := "x" }
      [("fn.lagon.dev", webDeployment)] [] [] 7 1 "local" 3
      sendFailOracles).response = .ok 500 .streamed ∧
    (handle_request
      { xLagonId := none, host := some ⟨some "fn.lagon.dev"⟩,
        path := "/run", body := "x" }
      [("fn.lagon.dev", webDeployment)] [] [] 7 1 "local" 3
      sendFailOracles).logRows =
      [⟨"f9", "d9", "error",
        "Function execution error: The stream was done before sending a response/data",
        "local", 3⟩] := by
  have hs := send_failure_soft
    { xLagonId := none, host := some ⟨some "fn.lagon.dev"⟩,
      path := "/run", body := "x" }
    [("fn.lagon.dev", webDeployment)] [] [] 7 1 "local" 3 sendFailOracles
    ⟨some "fn.lagon.dev"⟩ "fn.lagon.dev" webDeployment rfl rfl (by decide)
    rfl (by decide) (by decide) rfl
  exact ⟨hs.1, hs.2.2.2.1⟩

/-! ## C10 — code-read failure at worker creation -/

/-- C10: when a worker is created for the request (no pool entry existed)
and `get_code` fails, the isolate is still constructed — with `""` as code —
the new sender is still stored in the pool, and the HTTP response is the
same as it would have been had the code read succeeded: the failure never
fails the triggering request. -/
theorem code_read_failure_tolerated (req : HttpRequest)
    (registry : List (String × Deployment)) (pool lastReq : List (String × Nat))
    (now fresh : Nat) (region : String) (ts : Nat) (o : RequestOracles)
    (hv : HeaderValue) (h : String) (d : Deployment) (e code : String)
    (hhost : req.host = some hv) (hstr : hv.toStr = some h)
    (hlook : lookupKV registry h = some d) (hcron : d.cron = none)
    (hasset : find_asset req.path d.assets = none)
    (hfav : req.path ≠ "/favicon.ico")
    (hpool : lookupKV pool d.id = none) :
    (handle_request req registry pool lastReq now fresh region ts
      { o with getCode := .error e }).isolateCode = some "" ∧
    lookupKV (handle_request req registry pool lastReq now fresh region ts
      { o with getCode := .error e }).workers d.id = some fresh ∧
    (handle_request req registry pool lastReq now fresh region ts
      { o with getCode := .error e }).response =
      (handle_request req registry pool lastReq now fresh region ts
        { o with getCode := .ok code }).response := by
  refine ⟨?_, ?_, ?_⟩ <;>
    simp [handle_request, hhost, hstr, hlook, hcron, hasset, hfav, hpool,
      lookup_insertKV]

/-- Request oracles whose `get_code` fails. -/
def codeFailOracles : RequestOracles :=
  { getCode := .error "No such file or directory", assetResult := .ok 200,
    sendOk := true, isolateResults := [.response 200] }

/-- C10 witness: a concrete first request to `webDeployment` with a failing
code read still creates the worker with empty code, stores the sender, and
serves the same response a successful read would have. -/
theorem code_read_failure_tolerated_witness :
    (handle_request
      { xLagonId := none, host := some ⟨some "fn.lagon.dev"⟩,
        path := "/run", body := "x" }
      [("fn.lagon.dev", webDeployment)] [] [] 7 4 "local" 3
      codeFailOracles).isolateCode = some "" ∧
    lookupKV (handle_request
      { xLagonId := none, host := some ⟨some "fn.lagon.dev"⟩,
        path := "/run", body := "x" }
      [("fn.lagon.dev", webDeployment)] [] [] 7 4 "local" 3
      codeFailOracles).workers "d9" = some 4 ∧
    (handle_request
      { xLagonId := none, host := some ⟨some "fn.lagon.dev"⟩,
        path := "/run", body := "x" }
      [("fn.lagon.dev", webDeployment)] [] [] 7 4 "local" 3
      codeFailOracles).response =
      (handle_request
        { xLagonId := none, host := some ⟨some "fn.lagon.dev"⟩,
          path := "/run", body := "x" }
        [("fn.lagon.dev", webDeployment)] [] [] 7 4 "local" 3
        { codeFailOracles with getCode := .ok "export fn" }).response := by
  exact code_read_failure_tolerated
    { xLagonId := none, host := some ⟨some "fn.lagon.dev"⟩,
      path := "/run", body := "x" }
    [("fn.lagon.dev", webDeployment)] [] [] 7 4 "local" 3 codeFailOracles
    ⟨some "fn.lagon.dev"⟩ "fn.lagon.dev" webDeployment
    "No such file or directory" "export fn" rfl rfl (by decide) rfl
    (by decide) (by decide) rfl

/-! ## C1 — Promote swap -/

/-- C1 amended: for a Promote whose `previousDeploymentId` is found as a key
in the registry, after processing (i) every effective domain of the new
deployment maps to the new deployment; (ii) every effective (non-production)
domain of the clone of the found deployment that is not also an effective
domain of the new deployment maps to that clone (`is_production = false`);
(iii) when the found deployment was production and differs from the new
deployment record, its production-derived domain no longer maps to it. -/
theorem promote_swap (region root : String) (v : Json) (o : ReactorOracles)
    (s : ReactorState) (cr prevId : String) (d p : Deployment)
    (hcr : (v.index "cronRegion").as_str = some cr)
    (hfilter : (v.index "cron").as_str = none ∨ cr = region)
    (hparse : parseDeployment v ((v.index "cron").as_str) = some d)
    (hprev : (v.index "previousDeploymentId").as_str = some prevId)
    (hfound : lookupKV s.registry prevId = some p) :
    processMessage region root .promote (some v) o s =
      .ok { registry := promoteRegistry root s.registry prevId d,
            artifacts := s.artifacts,
            crons := promoteCrons o s.crons prevId d,
            workers := eraseKey s.workers prevId }
        [.promotion d.id d.function_id] ∧
    (∀ dom ∈ d.get_domains root,
      lookupKV (promoteRegistry root s.registry prevId d) dom = some d) ∧
    (∀ dom ∈ ({ p with is_production := false } : Deployment).get_domains root,
      dom ∉ d.get_domains root →
      lookupKV (promoteRegistry root s.registry prevId d) dom =
        some { p with is_production := false }) ∧
    (p.is_production = true → d ≠ p →
      lookupKV (promoteRegistry root s.registry prevId d)
        (p.function_name ++ "." ++ root) ≠ some p) := by
  refine ⟨?_, ?_, ?_, ?_⟩
  · simp only [processMessage, hcr, hparse, hprev]
    rw [if_neg (filterCond_neg ((v.index "cron").as_str) cr region .promote
      hfilter)]
  · intro dom hdom
    unfold promoteRegistry
    exact lookup_insertAll_of_mem _ _ _ _ hdom
  · intro dom hdom hnot
    unfold promoteRegistry
    rw [lookup_insertAll_of_not_mem _ _ _ _ hnot, hfound]
    exact lookup_insertAll_of_mem _ _ _ _ hdom
  · intro hprod hne
    have hdp : p.function_name ++ "." ++ root ∈ p.get_domains root := by
      unfold Deployment.get_domains
      rw [hprod]
      simp
    unfold promoteRegistry
    by_cases hd : p.function_name ++ "." ++ root ∈ d.get_domains root
    · rw [lookup_insertAll_of_mem _ _ _ _ hd]
      intro hcontra
      exact hne (Option.some.inj hcontra)
    · rw [lookup_insertAll_of_not_mem _ _ _ _ hd, hfound]
      by_cases hp' : p.function_name ++ "." ++ root ∈
          ({ p with is_production := false } : Deployment).get_domains root
      · rw [lookup_insertAll_of_mem _ _ _ _ hp']
        intro hcontra
        have heq := Option.some.inj hcontra
        have : (false : Bool) = true := by
          rw [← hprod]
          exact congrArg Deployment.is_production heq
        cases this
      · rw [lookup_insertAll_of_not_mem _ _ _ _ hp',
          lookup_removeAll_of_mem _ _ _ hdp]
        intro hcontra
        cases hcontra

/-- The previous (production) deployment found under key `"d1"`. -/
def c1prev : Deployment :=
  { id := "d1", function_id := "f1", function_name := "fn", assets := [],
    domains := ["a.com"], environment_variables := [], memory := 128,
    tick_timeout := 100, total_timeout := 1000, is_production := true,
    cron := none }

/-- Clone of `c1prev` with `is_production := false` (the "unpromoted"
deployment the Promote arm rebinds). -/
def c1unpromoted : Deployment :=
  { c1prev with is_production := false }

/-- Registry state holding `c1prev` under the key the Promote will look
up. -/
def c1state : ReactorState :=
  { registry := [("d1", c1prev)], artifacts := [], crons := [],
    workers := [] }

/-- A Promote payload whose new deployment record coincides with `c1prev`
(same id, same explicit domain `a.com`, production). -/
def c1payload : Json :=
  .obj [("deploymentId", .str "d1"), ("functionId", .str "f1"),
        ("functionName", .str "fn"), ("assets", .arr []),
        ("domains", .arr [.str "a.com"]), ("env", .obj []),
        ("memory", .num 128), ("tickTimeout", .num 100),
        ("totalTimeout", .num 1000), ("isProduction", .bool true),
        ("cronRegion", .str "local"), ("previousDeploymentId", .str "d1")]

/-- C1 counterexample: on this Promote the effective non-production domain
`a.com` of the previous deployment ends up mapping to the *new* deployment
(inserted last), not to the `is_production=false` clone, and the previous
deployment's production domain `fn.ex` still maps to the previous
(production) record — the claim's universally quantified routing statement
fails on this concrete event. -/
theorem promote_swap_counterexample :
    processMessage "local" "ex" .promote (some c1payload) okOracles c1state =
      .ok { registry := [("fn.ex", c1prev), ("a.com", c1prev),
                         ("d1.ex", c1unpromoted), ("d1", c1prev)],
            artifacts := [], crons := [], workers := [] }
        [.promotion "d1" "f1"] ∧
    "a.com" ∈ c1unpromoted.get_domains "ex" ∧
    lookupKV [("fn.ex", c1prev), ("a.com", c1prev),
              ("d1.ex", c1unpromoted), ("d1", c1prev)] "a.com" ≠
      some c1unpromoted ∧
    c1prev.is_production = true ∧
    lookupKV [("fn.ex", c1prev), ("a.com", c1prev),
              ("d1.ex", c1unpromoted), ("d1", c1prev)] "fn.ex" =
      some c1prev := by
  refine ⟨by decide, by decide, by decide, rfl, by decide⟩

/-- The new deployment of the well-separated Promote used as C1's
witness. -/
def c1new : Deployment :=
  { id := "d2", function_id := "f1", function_name := "fn", assets := [],
    domains := ["b.com"], environment_variables := [], memory := 128,
    tick_timeout := 100, total_timeout := 1000, is_production := true,
    cron := none }

/-- Promote payload deploying `c1new` over previous deployment `d1`. -/
def c1payload2 : Json :=
  .obj [("deploymentId", .str "d2"), ("functionId", .str "f1"),
        ("functionName", .str "fn"), ("assets", .arr []),
        ("domains", .arr [.str "b.com"]), ("env", .obj []),
        ("memory", .num 128), ("tickTimeout", .num 100),
        ("totalTimeout", .num 1000), ("isProduction", .bool true),
        ("cronRegion", .str "local"), ("previousDeploymentId", .str "d1")]

/-- C1 witness: on a Promote whose new deployment's effective domains are
disjoint from the clone's, every conclusion of the amended claim holds at
the concrete domains. -/
theorem promote_swap_witness :
    lookupKV (promoteRegistry "ex" c1state.registry "d1" c1new) "b.com" =
      some c1new ∧
    lookupKV (promoteRegistry "ex" c1state.registry "d1" c1new) "fn.ex" =
      some c1new ∧
    lookupKV (promoteRegistry "ex" c1state.registry "d1" c1new) "a.com" =
      some c1unpromoted ∧
    lookupKV (promoteRegistry "ex" c1state.registry "d1" c1new) "d1.ex" =
      some c1unpromoted ∧
    lookupKV (promoteRegistry "ex" c1state.registry "d1" c1new) "fn.ex" ≠
      some c1prev := by
  have h := promote_swap "local" "ex" c1payload2 okOracles c1state "local"
    "d1" c1new c1prev (by decide) (Or.inl (by decide)) (by decide) (by decide)
    (by decide)
  exact ⟨h.2.1 "b.com" (by decide), h.2.1 "fn.ex" (by decide),
    h.2.2.1 "a.com" (by decide) (by decide),
    h.2.2.1 "d1.ex" (by decide) (by decide),
    h.2.2.2 rfl (by decide)⟩
